import Mathlib

/-!
# Verification of the `must_future` crate (src/src/lib.rs)

Shallow embedding of the two wrapper types of the crate and their
operations.

A Rust future with output type `α` is modelled by a state type `σ`
together with a step function `step : σ → σ × Poll α`: a call to
`Future::poll` takes the current state, mutates it in place (here:
returns the new state) and reports either `Pending` or `Ready v`.
The step function itself is the code of the future and never changes
while it is being polled, so it appears as a fixed parameter of the
theorems.
-/

/-- `std::task::Poll<α>`: result of one poll of a future. -/
inductive Poll (α : Type) where
  | Pending
  | Ready (val : α)
deriving DecidableEq, Repr

/-- `MustFuture<F>` (src/src/lib.rs lines 30-32): a newtype struct with the
single private field `sub_fut` directly owning the inner future. -/
structure MustFuture (σ : Type) where
  sub_fut : σ
deriving DecidableEq, Repr

/-- `impl<F: Future> From<F> for MustFuture<F>` (lines 38-42):
`fn from(f: F) -> Self { Self { sub_fut: f } }`. -/
def MustFuture.fromFut {σ : Type} (f : σ) : MustFuture σ :=
  { sub_fut := f }

/-- `impl Future for MustFuture` (lines 44-54): `poll` pin-projects to the
`sub_fut` field and delegates: `std::future::Future::poll(p, cx)`. -/
def MustFuture.poll {σ α : Type} (step : σ → σ × Poll α)
    (m : MustFuture σ) : MustFuture σ × Poll α :=
  let r := step m.sub_fut
  ({ sub_fut := r.1 }, r.2)

/-- `impl Debug for MustFuture` (lines 58-62):
`f.debug_struct("MustFuture").finish()`.  Rust's `debug_struct(name)` with
no fields followed by `finish()` writes exactly `name`. -/
def MustFuture.fmt {σ : Type} (_m : MustFuture σ) : String :=
  "MustFuture"

/-- `futures::future::BoxFuture<'lt, T>` = `Pin<Box<dyn Future<Output=T>>>`:
a heap allocation exclusively owning the inner future.  The box adds no
behaviour; its state is the inner future's state. -/
structure BoxFuture (σ : Type) where
  fut : σ
deriving DecidableEq, Repr

/-- Polling a `BoxFuture` polls the heap-resident inner future in place. -/
def BoxFuture.poll {σ α : Type} (step : σ → σ × Poll α)
    (b : BoxFuture σ) : BoxFuture σ × Poll α :=
  let r := step b.fut
  ({ fut := r.1 }, r.2)

/-- `futures::future::FutureExt::boxed(f)`: move `f` to the heap and erase
its concrete type. -/
def FutureExt.boxed {σ : Type} (f : σ) : BoxFuture σ :=
  { fut := f }

/-- `MustBoxFuture<'lt, T>` (lines 66-69): a newtype struct with the single
private field `sub_fut : BoxFuture<'lt, T>`. -/
structure MustBoxFuture (σ : Type) where
  sub_fut : BoxFuture σ
deriving DecidableEq, Repr

/-- `MustBoxFuture::new` (lines 75-79):
`Self { sub_fut: futures::future::FutureExt::boxed(f) }`. -/
def MustBoxFuture.new {σ : Type} (f : σ) : MustBoxFuture σ :=
  { sub_fut := FutureExt.boxed f }

/-- `impl<'lt, T> From<BoxFuture<'lt, T>> for MustBoxFuture<'lt, T>`
(lines 97-101): `Self { sub_fut: f }`. -/
def MustBoxFuture.fromBox {σ : Type} (b : BoxFuture σ) : MustBoxFuture σ :=
  { sub_fut := b }

/-- `IntoMustBoxFuture::must_box` (lines 87-95): the default trait method
body is exactly `MustBoxFuture::new(self)`. -/
def must_box {σ : Type} (f : σ) : MustBoxFuture σ :=
  MustBoxFuture.new f

/-- `impl Future for MustBoxFuture` (lines 103-112):
`std::future::Future::poll(self.sub_fut.as_mut(), cx)`. -/
def MustBoxFuture.poll {σ α : Type} (step : σ → σ × Poll α)
    (m : MustBoxFuture σ) : MustBoxFuture σ × Poll α :=
  let r := BoxFuture.poll step m.sub_fut
  ({ sub_fut := r.1 }, r.2)

/-- `impl Debug for MustBoxFuture` (lines 114-118):
`f.debug_struct("MustBoxFuture").finish()`. -/
def MustBoxFuture.fmt {σ : Type} (_m : MustBoxFuture σ) : String :=
  "MustBoxFuture"

/-- The external driver: repeatedly poll a future (given by its step
function) starting from state `s`, with `fuel` polls available.  Returns
`some (p, v)` when the future completes with value `v` after exactly `p`
`Pending` signals, `none` when the fuel runs out first. -/
def drive {β α : Type} (poll : β → β × Poll α) : Nat → β → Option (Nat × α)
  | 0, _ => none
  | fuel + 1, s =>
    match poll s with
    | (_, Poll.Ready v) => some (0, v)
    | (s', Poll.Pending) =>
      (drive poll fuel s').map (fun p => (p.1 + 1, p.2))

/-- Apply `k` polls to a future, keeping only the state: the partially
polled future after `k` steps of the driver. -/
def pollN {β α : Type} (poll : β → β × Poll α) : Nat → β → β
  | 0, m => m
  | k + 1, m => pollN poll k (poll m).1

/-- The step function of the concrete scenario future `async { "test1" }`:
it is ready immediately, yielding the text value `"test1"`. -/
def test1Step : Unit → Unit × Poll String :=
  fun _ => ((), Poll.Ready "test1")

/-- The conversion directions a wrapper type could provide. -/
inductive ConversionDirection where
  | innerToWrapper
  | wrapperToInner
deriving DecidableEq, Repr

/-- The conversions the source provides for `MustFuture`.  The impls on
`MustFuture` in src/src/lib.rs are exactly: `From<F> for MustFuture<F>`
(inner → wrapper, lines 38-42), `Future` (lines 44-54), `Unpin` (line 56)
and `Debug` (lines 58-62); the `sub_fut` field and the pin-projection
accessor generated by `pin_utils::unsafe_pinned!` are private.  So the
only conversion is inner → wrapper. -/
def mustFutureConversions : List ConversionDirection :=
  [ConversionDirection.innerToWrapper]

/-- Reified Rust types relevant to the `Unpin` question, with the
structural `Unpin` facts of the ambient language as base cases. -/
inductive RTy where
  | unpinBase
  | pinnedBase
  | mustFuture (f : RTy)
deriving DecidableEq, Repr

/-- Whether a reified type is `Unpin`.  `unpinBase` stands for any inner
future type that is `Unpin`, `pinnedBase` for one that is not.  The
`mustFuture` case embeds `impl<F: Future + Unpin> Unpin for MustFuture<F>`
(line 56); since `MustFuture<F>` owns an `F` field, it is `Unpin` exactly
when `F` is. -/
def RTy.unpin : RTy → Bool
  | .unpinBase => true
  | .pinnedBase => false
  | .mustFuture f => f.unpin

/- ## Helper lemmas -/

/-- Driving the generic wrapper is the same as driving the inner future:
`MustFuture.poll` is a pure pass-through, so the driver sees the same
Pending/Ready trace and the same output. -/
theorem drive_mustFuture_eq {σ α : Type} (step : σ → σ × Poll α) :
    ∀ (fuel : Nat) (s : σ),
      drive (MustFuture.poll step) fuel { sub_fut := s } = drive step fuel s := by
  intro fuel
  induction fuel with
  | zero => intro s; rfl
  | succ n ih =>
    intro s
    rcases h : step s with ⟨s', r⟩
    cases r with
    | Ready v =>
      simp [drive, MustFuture.poll, h]
    | Pending =>
      simp [drive, MustFuture.poll, h, ih]

/-- Driving the type-erased wrapper is the same as driving the inner
future: `MustBoxFuture.poll` delegates through the box unchanged. -/
theorem drive_mustBoxFuture_eq {σ α : Type} (step : σ → σ × Poll α) :
    ∀ (fuel : Nat) (s : σ),
      drive (MustBoxFuture.poll step) fuel (MustBoxFuture.new s) =
        drive step fuel s := by
  intro fuel
  induction fuel with
  | zero => intro s; rfl
  | succ n ih =>
    intro s
    simp only [MustBoxFuture.new, FutureExt.boxed] at ih
    rcases h : step s with ⟨s', r⟩
    cases r with
    | Ready v =>
      simp [drive, MustBoxFuture.poll, BoxFuture.poll, MustBoxFuture.new,
        FutureExt.boxed, h]
    | Pending =>
      simp [drive, MustBoxFuture.poll, BoxFuture.poll, MustBoxFuture.new,
        FutureExt.boxed, h, ih]

/- ## Claims -/

/-- C1: Pass-through equivalence.  For every inner future, polling the
wrapper (`MustFuture.poll` for the generic wrapper, `MustBoxFuture.poll`
for the type-erased one) returns exactly the result of polling the inner
future: driving the wrapped future to completion yields the same output
after the same number of Pending signals, and a single poll of either
wrapper (in any partially-polled state) returns the inner poll's
Pending/Ready signal and output untransformed. -/
theorem mustFuture_pass_through {σ α : Type} (step : σ → σ × Poll α)
    (fuel : Nat) (s : σ) (m : MustFuture σ) (mb : MustBoxFuture σ) :
    drive (MustFuture.poll step) fuel (MustFuture.fromFut s) = drive step fuel s ∧
    drive (MustBoxFuture.poll step) fuel (MustBoxFuture.new s) = drive step fuel s ∧
    (MustFuture.poll step m).2 = (step m.sub_fut).2 ∧
    (MustBoxFuture.poll step mb).2 = (step mb.sub_fut.fut).2 :=
  ⟨drive_mustFuture_eq step fuel s, drive_mustBoxFuture_eq step fuel s, rfl, rfl⟩

/-- C2: Debug-format stability for `MustBoxFuture`.  Formatting the
wrapper after any number `k` of polls (including zero) produces the fixed
label `"MustBoxFuture"`, and the formatting of any two wrapper values is
identical, whatever inner future and inner state they hold: the inner
future is never formatted. -/
theorem mustBoxFuture_debug_stable {σ α : Type} (step : σ → σ × Poll α)
    (f : σ) (k : Nat) (m₁ m₂ : MustBoxFuture σ) :
    MustBoxFuture.fmt (pollN (MustBoxFuture.poll step) k (MustBoxFuture.new f)) =
      "MustBoxFuture" ∧
    MustBoxFuture.fmt m₁ = MustBoxFuture.fmt m₂ :=
  ⟨rfl, rfl⟩

/-- C3: Fluent-construction equivalence.  For every concrete future `f`,
the wrapper produced by `must_box f` is the very same value as the one
produced by `MustBoxFuture.new f`, hence behaviorally indistinguishable:
driving either to completion gives the same result at every fuel. -/
theorem must_box_equiv {σ α : Type} (step : σ → σ × Poll α) (f : σ) (fuel : Nat) :
    must_box f = MustBoxFuture.new f ∧
    drive (MustBoxFuture.poll step) fuel (must_box f) =
      drive (MustBoxFuture.poll step) fuel (MustBoxFuture.new f) :=
  ⟨rfl, rfl⟩

/-- C4: Construction of the generic wrapper.  `MustFuture.fromFut` is a
total function (hence infallible), and the wrapper it returns holds
exactly the given inner future, unchanged and unpolled: the result is
literally the single-field record `{ sub_fut := f }`.  No polling can
occur at construction time: the constructor is not even given a step
function to call. -/
theorem mustFuture_fromFut_total {σ : Type} (f : σ) :
    MustFuture.fromFut f = { sub_fut := f } ∧
    (MustFuture.fromFut f).sub_fut = f :=
  ⟨rfl, rfl⟩

/-- C5: Concrete scenario 1.  Wrapping `async { "test1" }` (a future that
is ready immediately) in `MustFuture` and driving it: the very first poll
returns `Ready "test1"`, and driving to completion yields `"test1"` after
zero Pending signals. -/
theorem mustFuture_test1 :
    MustFuture.poll test1Step (MustFuture.fromFut ()) =
      ({ sub_fut := () }, Poll.Ready "test1") ∧
    drive (MustFuture.poll test1Step) 1 (MustFuture.fromFut ()) =
      some (0, "test1") :=
  ⟨rfl, rfl⟩

/-- C6: Concrete scenario 2.  Wrapping `async { "test1" }` via the
allocating constructor `MustBoxFuture.new` and driving it to completion
yields `"test1"` (on the first poll, with zero Pending signals). -/
theorem mustBoxFuture_new_test1 :
    drive (MustBoxFuture.poll test1Step) 1 (MustBoxFuture.new ()) =
      some (0, "test1") :=
  rfl

/-- C7: Frame property of `MustFuture.poll`.  A poll leaves the wrapper
holding the inner future advanced by its own step — the inner computation
(the step function, fixed on both sides of the equation) is never replaced
by a different one — and the wrapper has no state other than the `sub_fut`
field that poll could change. -/
theorem mustFuture_poll_frame {σ α : Type} (step : σ → σ × Poll α)
    (m : MustFuture σ) :
    (MustFuture.poll step m).1 = { sub_fut := (step m.sub_fut).1 } ∧
    m = { sub_fut := m.sub_fut } :=
  ⟨rfl, rfl⟩

/-- C8 counterexample: the claim that `MustFuture` provides conversions in
both directions is false — the source provides no conversion from the
wrapper back to the inner future (the only conversion impl is
`From<F> for MustFuture<F>`, and the `sub_fut` field is private). -/
theorem mustFuture_no_wrapperToInner :
    ¬ (ConversionDirection.innerToWrapper ∈ mustFutureConversions ∧
       ConversionDirection.wrapperToInner ∈ mustFutureConversions) := by
  decide

/-- C8 (amended): besides the delegating poll implementation, the generic
wrapper provides a conversion from an inner future to the wrapper (the
`From<F>` impl), but no conversion from the wrapper back to the inner
future. -/
theorem mustFuture_conversions_one_direction :
    ConversionDirection.innerToWrapper ∈ mustFutureConversions ∧
    ConversionDirection.wrapperToInner ∉ mustFutureConversions := by
  decide

/-- C9: Unpin opt-in.  For every inner future type that is safely
relocatable mid-execution (`Unpin`), the generic wrapper around it
inherits that guarantee, by the impl `Unpin for MustFuture<F>` whenever
`F: Future + Unpin`. -/
theorem mustFuture_unpin (f : RTy) (h : f.unpin = true) :
    (RTy.mustFuture f).unpin = true := by
  simpa [RTy.unpin] using h

/-- C9 witness: a concrete `Unpin` inner type, whose `MustFuture` wrapper
is `Unpin` as well. -/
theorem mustFuture_unpin_witness :
    RTy.unpinBase.unpin = true ∧ (RTy.mustFuture RTy.unpinBase).unpin = true :=
  ⟨rfl, mustFuture_unpin RTy.unpinBase rfl⟩

/-- C10: Debug-format stability for the generic wrapper.  `MustFuture`
also implements debug formatting with the fixed, content-free label
`"MustFuture"`, after any number of polls and independent of the inner
future and its state. -/
theorem mustFuture_debug_stable {σ α : Type} (step : σ → σ × Poll α)
    (f : σ) (k : Nat) (m₁ m₂ : MustFuture σ) :
    MustFuture.fmt (pollN (MustFuture.poll step) k (MustFuture.fromFut f)) =
      "MustFuture" ∧
    MustFuture.fmt m₁ = MustFuture.fmt m₂ :=
  ⟨rfl, rfl⟩
